import Mathlib

/-!
Verification of the asmjit emitter core and the AArch64 instruction API
against its specification.  The development shallowly embeds the relevant
parts of `src/asmjit/core/emitter.h` and `src/asmjit/arm/a64instapi.cpp`:
byte strings are lists of natural numbers below 256, 32-bit and 64-bit
machine arithmetic is explicit (`% 2 ^ 32`, `% 2 ^ 64`), and fallible
operations return an error code next to the updated state.  Parts of the
repository that are collaborators of the embedded code but are not
available under src (the instruction database tables, small helpers from
support.h and inst.h, and the out-of-line emitter implementation) are
modelled from the specification; each such definition carries a doc
comment that says so and names the missing piece.
-/

namespace AsmJit

/-- Modelled from the spec: error codes (section 7 lists the closed set of
error kinds; core/globals.h, which assigns the numeric values, is not under
src/).  Only `kErrorOk = 0` and distinctness of the codes matter to the
verified claims. -/
def kErrorOk : Nat := 0

/-- Modelled from the spec: the `InvalidInstruction` error kind. -/
def kErrorInvalidInstruction : Nat := 1

/-- Emitter type, from `EmitterType` in core/emitter.h (values 0..3). -/
inductive EmitterType where
  | kNone
  | kAssembler
  | kBuilder
  | kCompiler
deriving DecidableEq

/-- The numeric value of an `EmitterType`, as used by the
`uint32_t(_emitterType)` casts in core/emitter.h. -/
def EmitterType.toNat : EmitterType → Nat
  | EmitterType.kNone => 0
  | EmitterType.kAssembler => 1
  | EmitterType.kBuilder => 2
  | EmitterType.kCompiler => 3

/-- Modelled from the spec: `RegOnly` (core/operand.h is not under src/).
It stores a register signature and id; `isReg` tests a nonzero signature
and `reset` clears the record so that no extra register is pending. -/
structure RegOnly where
  _signature : Nat
  _id : Nat
deriving DecidableEq

/-- `RegOnly::isReg`: a `RegOnly` denotes a register when its signature is
nonzero. -/
def RegOnly.isReg (r : RegOnly) : Bool := r._signature != 0

/-- `RegOnly::reset`: clears the signature (and id), yielding a value that
is not a register. -/
def RegOnly.reset : RegOnly := { _signature := 0, _id := 0 }

/-- `DiagnosticOptions::kValidateAssembler` (core/emitter.h line 154). -/
def DiagnosticOptions.kValidateAssembler : Nat := 0x00000001

/-- `DiagnosticOptions::kValidateIntermediate` (core/emitter.h line 168). -/
def DiagnosticOptions.kValidateIntermediate : Nat := 0x00000002

/-- `InstOptions::kNone` - the default (empty) instruction options. -/
def InstOptions.kNone : Nat := 0

/-- The members of `BaseEmitter` (core/emitter.h lines 243-305) that the
verified claims touch.  Instruction options are 32-bit masks embedded as
natural numbers; the inline comment is a borrowed byte string or null,
embedded as `Option (List Nat)`. -/
structure BaseEmitter where
  _emitterType : EmitterType
  _emitterFlags : Nat
  _validationFlags : Nat
  _diagnosticOptions : Nat
  _encodingOptions : Nat
  _forcedInstOptions : Nat
  _instOptions : Nat
  _extraReg : RegOnly
  _inlineComment : Option (List Nat)
deriving DecidableEq

/-- `BaseEmitter::State` (core/emitter.h lines 202-207): options, extra
register and inline comment of the next instruction, as grabbed by
`_grabState`. -/
structure BaseEmitter.State where
  options : Nat
  extraReg : RegOnly
  comment : Option (List Nat)
deriving DecidableEq

/-- `BaseEmitter::isAssembler` (core/emitter.h line 341). -/
def BaseEmitter.isAssembler (e : BaseEmitter) : Bool :=
  e._emitterType == EmitterType.kAssembler

/-- `BaseEmitter::isBuilder` (core/emitter.h line 347): compares the
numeric value of the emitter type with that of `kBuilder`. -/
def BaseEmitter.isBuilder (e : BaseEmitter) : Bool :=
  decide (EmitterType.kBuilder.toNat ≤ e._emitterType.toNat)

/-- `BaseEmitter::isCompiler` (core/emitter.h line 351). -/
def BaseEmitter.isCompiler (e : BaseEmitter) : Bool :=
  e._emitterType == EmitterType.kCompiler

/-- `BaseEmitter::setInstOptions` (core/emitter.h line 598). -/
def BaseEmitter.setInstOptions (e : BaseEmitter) (options : Nat) : BaseEmitter :=
  { e with _instOptions := options }

/-- `BaseEmitter::resetInstOptions` (core/emitter.h line 604). -/
def BaseEmitter.resetInstOptions (e : BaseEmitter) : BaseEmitter :=
  { e with _instOptions := InstOptions.kNone }

/-- `BaseEmitter::setExtraReg` (core/emitter.h line 618): `_extraReg.init(reg)`. -/
def BaseEmitter.setExtraReg (e : BaseEmitter) (reg : RegOnly) : BaseEmitter :=
  { e with _extraReg := reg }

/-- `BaseEmitter::resetExtraReg` (core/emitter.h line 621). -/
def BaseEmitter.resetExtraReg (e : BaseEmitter) : BaseEmitter :=
  { e with _extraReg := RegOnly.reset }

/-- `BaseEmitter::setInlineComment` (core/emitter.h line 631). -/
def BaseEmitter.setInlineComment (e : BaseEmitter) (s : Option (List Nat)) : BaseEmitter :=
  { e with _inlineComment := s }

/-- `BaseEmitter::resetInlineComment` (core/emitter.h line 634). -/
def BaseEmitter.resetInlineComment (e : BaseEmitter) : BaseEmitter :=
  { e with _inlineComment := none }

/-- `BaseEmitter::resetState` (core/emitter.h lines 648-652): resets
instruction options, extra register and inline comment. -/
def BaseEmitter.resetState (e : BaseEmitter) : BaseEmitter :=
  e.resetInstOptions.resetExtraReg.resetInlineComment

/-- `BaseEmitter::_grabState` (core/emitter.h lines 659-663): captures
`{_instOptions | _forcedInstOptions, _extraReg, _inlineComment}`, resets
the emitter state, and returns the captured state next to the updated
emitter. -/
def BaseEmitter._grabState (e : BaseEmitter) : BaseEmitter.State × BaseEmitter :=
  ({ options := e._instOptions ||| e._forcedInstOptions,
     extraReg := e._extraReg,
     comment := e._inlineComment },
   e.resetState)

/-- The `Idle` state of the transient state machine (spec section 4.2):
no pending instruction options, no pending extra register, no pending
inline comment. -/
def transientIdle (e : BaseEmitter) : Prop :=
  e._instOptions = InstOptions.kNone ∧ e._extraReg.isReg = false ∧ e._inlineComment = none

instance (e : BaseEmitter) : Decidable (transientIdle e) := by
  unfold transientIdle
  infer_instance

/-- Modelled from the spec: `BaseInst` (core/inst.h is not under src/):
an instruction id together with instruction options and an extra
register, as consumed by `BaseEmitter::emitInst`. -/
structure BaseInst where
  id : Nat
  options : Nat
  extraReg : RegOnly
deriving DecidableEq

/-- Modelled from the spec: operands (core/operand.h and arm/a64operand.h
are not under src/).  Only the queries the embedded functions perform are
represented: register operands with an optional element index, memory
operands with base/index registers and pre/post indexing, and all other
operand kinds collapsed into `other`. -/
inductive Operand where
  | reg (hasElementIndex : Bool) (elementType : Nat) (elementIndex : Nat)
  | mem (hasBase : Bool) (hasIndex : Bool) (isPreOrPost : Bool)
  | other
deriving DecidableEq

/-- `Operand_::isRegOrMem`. -/
def Operand.isRegOrMem : Operand → Bool
  | Operand.reg _ _ _ => true
  | Operand.mem _ _ _ => true
  | Operand.other => false

/-- `Operand_::isReg`. -/
def Operand.isReg : Operand → Bool
  | Operand.reg _ _ _ => true
  | _ => false

/-- `BaseEmitter::emitInst` (core/emitter.h lines 764-768): stores the
instruction options and extra register of `inst` into the transient state
and then dispatches to the virtual `_emitOpArray`, whose implementation is
supplied by the concrete emitter and is passed here as a parameter. -/
def BaseEmitter.emitInst
    (emitOpArrayImpl : BaseEmitter → Nat → List Operand → Nat → Nat × BaseEmitter)
    (e : BaseEmitter) (inst : BaseInst) (operands : List Operand) (opCount : Nat) :
    Nat × BaseEmitter :=
  emitOpArrayImpl ((e.setInstOptions inst.options).setExtraReg inst.extraReg)
    inst.id operands opCount

/-- Modelled from the spec: `BaseEmitter::_reportError` (core/emitter.cpp
is not under src/).  Per the reportError contract in section 4.2 of the
spec it calls `handleError(err, message, this)` on the attached error
handler when one is installed and then yields `err` unchanged; the
returned Bool records whether the handler was invoked. -/
def BaseEmitter._reportError (hasErrorHandlerAttached : Bool) (err : Nat)
    (message : Option (List Nat)) : Nat × Bool :=
  (err, hasErrorHandlerAttached)

/-- `BaseEmitter::reportError` (core/emitter.h lines 514-522): forwards to
`_reportError` and returns its result; the function asserts that the
result equals `err` and that `err` is not `kErrorOk`. -/
def BaseEmitter.reportError (hasErrorHandlerAttached : Bool) (err : Nat)
    (message : Option (List Nat)) : Nat × Bool :=
  BaseEmitter._reportError hasErrorHandlerAttached err message

/-- Modelled from the spec: the persistent state an Assembler operates on
(core/codeholder.h and core/assembler.cpp are not under src/).  It holds
the attached emitter together with the current section code buffer and the
label and relocation bookkeeping of the CodeHolder, the latter two kept
abstract as lists of records. -/
structure Assembler where
  emitter : BaseEmitter
  buffer : List Nat
  labels : List Nat
  relocations : List Nat
deriving DecidableEq

/-- Modelled from the spec: the emit path of the Assembler variant
(core/emitter.cpp and core/assembler.cpp are not under src/), following
sections 4.2, 4.3 and 7 of the spec.  The pending transient state is
grabbed with `_grabState` (which clears it) before dispatching; when
`DiagnosticOptions::kValidateAssembler` is set the instruction is
validated first and a validation failure returns that error; otherwise
the architecture encoder either appends its bytes to the current section
buffer or fails, and on failure the section buffer length is restored
before the error is returned, so a failed emit changes no persistent
state. -/
def Assembler.emitStep
    (validateImpl : Nat → List Operand → Nat)
    (encode : Nat → List Operand → BaseEmitter.State → Except Nat (List Nat))
    (a : Assembler) (instId : Nat) (operands : List Operand) : Nat × Assembler :=
  if a.emitter._diagnosticOptions &&& DiagnosticOptions.kValidateAssembler ≠ 0 ∧
     validateImpl instId operands ≠ kErrorOk then
    (validateImpl instId operands, { a with emitter := (a.emitter._grabState).snd })
  else
    match encode instId operands (a.emitter._grabState).fst with
    | Except.ok bytes =>
      (kErrorOk, { a with emitter := (a.emitter._grabState).snd, buffer := a.buffer ++ bytes })
    | Except.error err => (err, { a with emitter := (a.emitter._grabState).snd })

/-- Equality of all persistent state of two Assemblers: the section
buffer, the label and relocation bookkeeping, and every member of the
attached emitter other than the transient triple (spec section 7). -/
def persistentEq (a b : Assembler) : Prop :=
  a.buffer = b.buffer ∧ a.labels = b.labels ∧ a.relocations = b.relocations ∧
  a.emitter._emitterType = b.emitter._emitterType ∧
  a.emitter._emitterFlags = b.emitter._emitterFlags ∧
  a.emitter._validationFlags = b.emitter._validationFlags ∧
  a.emitter._diagnosticOptions = b.emitter._diagnosticOptions ∧
  a.emitter._encodingOptions = b.emitter._encodingOptions ∧
  a.emitter._forcedInstOptions = b.emitter._forcedInstOptions

/-- `Inst::kIdNone` - the invalid instruction id (value 0). -/
def Inst.kIdNone : Nat := 0

/-- `SIZE_MAX` on the 64-bit targets: the sentinel length that makes
`stringToInstId` compute `strlen(s)` itself. -/
def SIZE_MAX : Nat := 2 ^ 64 - 1

/-- Modelled from the spec: per-instruction record of the AArch64
instruction database used by `queryRWInfo` (arm/a64instdb_p.h and
arm/a64instdb.cpp are not under src/): the index into `instRWInfoData`
and whether the instruction has `InstDB::kInstFlagConsecutive`. -/
structure InstInfo where
  rwInfoIndex : Nat
  consecutive : Bool
deriving DecidableEq

/-- Modelled from the spec: the AArch64 instruction database
(arm/a64instdb.cpp and arm/a64instdb_p.h are not under src/).
`nameOf id` is the byte string at `InstDB::_nameData +
infoById(id)._nameDataIndex`; `nameIndexStart p` and `nameIndexEnd p` are
`InstDB::instNameIndex[p].start` and `.end` for a first-letter bucket
`p` below 26; `maxNameSize` is `InstDB::kMaxNameSize`; `idCount` bounds
the defined instruction ids; `instInfoOf id` is `InstDB::_instInfoTable[id]`.
Names are byte lists without NUL bytes. -/
structure InstDBModel where
  nameOf : Nat → List Nat
  nameIndexStart : Nat → Nat
  nameIndexEnd : Nat → Nat
  maxNameSize : Nat
  idCount : Nat
  instInfoOf : Nat → InstInfo

/-- Modelled from the spec: `Inst::isDefinedId` (core/inst.h is not under
src/): an instruction id is defined when it is nonzero and below the
instruction count of the database. -/
def Inst.isDefinedId (db : InstDBModel) (instId : Nat) : Bool :=
  decide (0 < instId ∧ instId < db.idCount)

/-- Modelled from the spec: `Support::cmpInstName` (core/support.h is not
under src/).  It compares a NUL-terminated table name `a` with the
searched key, the first `len` bytes of `s`: bytes are compared until one
differs (returning their difference) and after `len` equal bytes the
result is the next byte of `a`, which is 0 exactly when `a` also ends
there.  Reading past the end of a byte list yields the terminating NUL. -/
def cmpInstName (a s : List Nat) (len : Nat) : Int :=
  match len with
  | 0 => Int.ofNat (a.headD 0)
  | Nat.succ n =>
    if a.headD 0 = s.headD 0 then cmpInstName a.tail s.tail n
    else Int.ofNat (a.headD 0) - Int.ofNat (s.headD 0)

/-- The binary-search loop of `InstInternal::stringToInstId`
(arm/a64instapi.cpp lines 58-74).  `base` and `lim` delimit the window
and `cur = base + (lim >> 1)`; when the name at `cur` compares below the
key the window becomes `(cur + 1, (lim - 1) >> 1)` (the `lim--` before
the shift), when it compares above it becomes `(base, lim >> 1)`, and on
a match the table index of `cur` is returned.  Falling out of the loop
returns `Inst::kIdNone`. -/
def instSearch (nameOf : Nat → List Nat) (s : List Nat) (len : Nat)
    (base lim : Nat) : Nat :=
  if h : lim = 0 then Inst.kIdNone
  else if cmpInstName (nameOf (base + lim / 2)) s len < 0 then
    instSearch nameOf s len (base + lim / 2 + 1) ((lim - 1) / 2)
  else if 0 < cmpInstName (nameOf (base + lim / 2)) s len then
    instSearch nameOf s len base (lim / 2)
  else base + lim / 2
termination_by lim
decreasing_by
  · omega
  · omega

/-- `uint32_t(s[0])` for a stored byte: the C `char` is signed on the
targets asmjit supports, so bytes at or above 128 sign-extend into large
32-bit values. -/
def charToUInt32 (b : Nat) : Nat :=
  if b % 256 < 128 then b % 256 else b % 256 + (2 ^ 32 - 256)

/-- The effective length used by `stringToInstId` (arm/a64instapi.cpp
lines 38-39): when the caller passes `SIZE_MAX` the length is computed by
`strlen`, which for a NUL-free byte list is its length. -/
def effLen (cs : List Nat) (len : Nat) : Nat :=
  if len = SIZE_MAX then cs.length else len

/-- `InstInternal::stringToInstId` (arm/a64instapi.cpp lines 32-75).  The
input string is `none` for a NULL pointer, otherwise a byte list.  A NULL
pointer, an effective length of zero or above `InstDB::kMaxNameSize`, a
first character whose `uint32_t` value minus `a` exceeds `z - a` (the
unsigned wraparound makes this reject every byte outside lowercase
ASCII), and an empty first-letter bucket all yield `Inst::kIdNone`;
otherwise the first-letter bucket of the name table is binary searched. -/
def stringToInstId (db : InstDBModel) (s : Option (List Nat)) (len : Nat) : Nat :=
  match s with
  | Option.none => Inst.kIdNone
  | Option.some cs =>
    if effLen cs len = 0 ∨ effLen cs len > db.maxNameSize then Inst.kIdNone
    else if (charToUInt32 (cs.headD 0) + (2 ^ 32 - 97)) % 2 ^ 32 > 25 then Inst.kIdNone
    else if db.nameIndexStart ((charToUInt32 (cs.headD 0) + (2 ^ 32 - 97)) % 2 ^ 32) = 0 then
      Inst.kIdNone
    else
      instSearch db.nameOf cs (effLen cs len)
        (db.nameIndexStart ((charToUInt32 (cs.headD 0) + (2 ^ 32 - 97)) % 2 ^ 32))
        (db.nameIndexEnd ((charToUInt32 (cs.headD 0) + (2 ^ 32 - 97)) % 2 ^ 32) -
          db.nameIndexStart ((charToUInt32 (cs.headD 0) + (2 ^ 32 - 97)) % 2 ^ 32))

/-- `InstInternal::instIdToString` (arm/a64instapi.cpp lines 22-30): an
undefined instruction id yields `kErrorInvalidInstruction`; otherwise the
name of the instruction is appended to the output string. -/
def instIdToString (db : InstDBModel) (instId : Nat) (output : List Nat) :
    Except Nat (List Nat) :=
  if Inst.isDefinedId db instId = false then Except.error kErrorInvalidInstruction
  else Except.ok (output ++ db.nameOf instId)

/-- `InstInternal::validate` (arm/a64instapi.cpp lines 82-86): the AArch64
validator is a stub that ignores all of its arguments and returns
`kErrorOk`. -/
def InstInternal.validate (arch : Nat) (inst : BaseInst) (operands : List Operand)
    (opCount : Nat) (validationFlags : Nat) : Nat :=
  kErrorOk

/-- Modelled from the spec: `OpRWFlags::kRead` (core/inst.h is not under
src/).  The exact bit positions of the flag bits are not observable by
the verified claims; the read and write bits match the `uint8_t` casts in
the `instRWInfoData` table. -/
def OpRWFlags.kRead : Nat := 0x01

/-- Modelled from the spec: `OpRWFlags::kWrite`. -/
def OpRWFlags.kWrite : Nat := 0x02

/-- Modelled from the spec: `OpRWFlags::kRW = kRead | kWrite`. -/
def OpRWFlags.kRW : Nat := 0x03

/-- Modelled from the spec: `OpRWFlags::kNone`. -/
def OpRWFlags.kNone : Nat := 0

/-- Modelled from the spec: `OpRWFlags::kConsecutive`. -/
def OpRWFlags.kConsecutive : Nat := 0x08

/-- Modelled from the spec: `OpRWFlags::kZExt`. -/
def OpRWFlags.kZExt : Nat := 0x10

/-- Modelled from the spec: `OpRWFlags::kMemBaseRead`. -/
def OpRWFlags.kMemBaseRead : Nat := 0x100

/-- Modelled from the spec: `OpRWFlags::kMemIndexRead`. -/
def OpRWFlags.kMemIndexRead : Nat := 0x400

/-- Modelled from the spec: `OpRWFlags::kMemIndexWrite`. -/
def OpRWFlags.kMemIndexWrite : Nat := 0x800

/-- The fields of `OpRWInfo` written by `queryRWInfo` (the structure
itself is declared in core/inst.h, which is not under src/). -/
structure OpRWInfo where
  _opFlags : Nat
  _physId : Nat
  _rmSize : Nat
  _readByteMask : Nat
  _writeByteMask : Nat
  _extendByteMask : Nat
  _consecutiveLeadCount : Nat
deriving DecidableEq

/-- Modelled from the spec: `OpRWInfo::reset` zeroes the record. -/
def OpRWInfo.reset : OpRWInfo :=
  { _opFlags := 0, _physId := 0, _rmSize := 0, _readByteMask := 0,
    _writeByteMask := 0, _extendByteMask := 0, _consecutiveLeadCount := 0 }

/-- `OpRWInfo::isRead`: the read bit is set. -/
def OpRWInfo.isRead (op : OpRWInfo) : Bool := (op._opFlags &&& OpRWFlags.kRead) != 0

/-- `OpRWInfo::isWrite`: the write bit is set. -/
def OpRWInfo.isWrite (op : OpRWInfo) : Bool := (op._opFlags &&& OpRWFlags.kWrite) != 0

/-- `OpRWInfo::addOpFlags`. -/
def OpRWInfo.addOpFlags (op : OpRWInfo) (flags : Nat) : OpRWInfo :=
  { op with _opFlags := op._opFlags ||| flags }

/-- The `instRWInfoData` table (arm/a64instapi.cpp lines 97-124): one row
of six per-operand flags per RW-info kind, where `1 = kRead`,
`2 = kWrite` and `3 = kRW` (the `R`, `W` and `X` of the source). -/
def instRWInfoData : List (List Nat) := [
  [1, 1, 1, 1, 1, 1],
  [1, 2, 1, 1, 1, 1],
  [1, 3, 1, 1, 1, 1],
  [1, 1, 2, 1, 1, 1],
  [1, 2, 3, 1, 1, 1],
  [2, 1, 1, 1, 1, 1],
  [2, 1, 2, 1, 1, 1],
  [2, 1, 3, 1, 1, 1],
  [2, 1, 1, 2, 1, 1],
  [2, 1, 1, 3, 1, 1],
  [2, 2, 1, 1, 1, 1],
  [3, 1, 1, 1, 1, 1],
  [3, 1, 3, 1, 1, 1],
  [3, 3, 1, 1, 3, 1],
  [2, 1, 1, 1, 1, 1],
  [1, 2, 1, 1, 1, 1],
  [1, 1, 1, 1, 1, 1]]

/-- The `elementTypeSize` table (arm/a64instapi.cpp line 126). -/
def elementTypeSize : List Nat := [0, 1, 2, 4, 8, 4, 4, 0]

/-- The field writes shared by both operand loops of `queryRWInfo`
(arm/a64instapi.cpp lines 162-172 and 206-216): store the RW flags with
`kZExt` masked out, mark the physical id bad (`BaseReg::kIdBad = 0xFF`),
clear the rm size, and derive full or empty 64-bit read/write byte masks
from the read and write bits. -/
def queryRWCommon (rwFlags : Nat) (op : OpRWInfo) : OpRWInfo :=
  let op := { op with _opFlags := rwFlags &&& ((2 ^ 32 - 1) ^^^ OpRWFlags.kZExt),
                      _physId := 0xFF, _rmSize := 0 }
  { op with _readByteMask := if op.isRead then 2 ^ 64 - 1 else 0,
            _writeByteMask := if op.isWrite then 2 ^ 64 - 1 else 0,
            _extendByteMask := 0 }

/-- The memory-operand tail shared by both operand loops of `queryRWInfo`
(arm/a64instapi.cpp lines 180-191 and 233-244): a base register adds
`kMemBaseRead`; an index register adds `kMemIndexRead` and, for pre- or
post-indexed addressing, `kMemIndexWrite`. -/
def queryRWMem (hasBase hasIndex isPreOrPost : Bool) (op : OpRWInfo) : OpRWInfo :=
  let op := if hasBase then op.addOpFlags OpRWFlags.kMemBaseRead else op
  if hasIndex then
    (op.addOpFlags OpRWFlags.kMemIndexRead).addOpFlags
      (if isPreOrPost then OpRWFlags.kMemIndexWrite else OpRWFlags.kNone)
  else op

/-- The per-operand body of the consecutive branch of `queryRWInfo`
(arm/a64instapi.cpp lines 151-192): operands that are neither register
nor memory are reset; the RW flags come from `rwx[0]` for all but the
last operand and from `rwx[1]` for the last; the leading register records
`opCount - 1` consecutive followers and the later registers are marked
`kConsecutive`. -/
def queryRWStepConsecutive (rwx : List Nat) (opCount : Nat) (srcOp : Operand)
    (i : Nat) (op : OpRWInfo) : OpRWInfo :=
  if srcOp.isRegOrMem = false then OpRWInfo.reset
  else
    let op := queryRWCommon (if i < opCount - 1 then rwx.getD 0 0 else rwx.getD 1 0) op
    match srcOp with
    | Operand.reg _ _ _ =>
      if i = 0 then { op with _consecutiveLeadCount := opCount - 1 }
      else op.addOpFlags OpRWFlags.kConsecutive
    | Operand.mem hasBase hasIndex isPreOrPost => queryRWMem hasBase hasIndex isPreOrPost op
    | Operand.other => op

/-- The per-operand body of the default branch of `queryRWInfo`
(arm/a64instapi.cpp lines 195-245): operands that are neither register
nor memory are reset; the RW flags come from `rwx[i]`; a vector register
with an element index restricts both byte masks to the accessed element,
`lsbMask(elementSize) << (elementIndex * elementSize)` in 64-bit
arithmetic. -/
def queryRWStepDefault (rwx : List Nat) (srcOp : Operand) (i : Nat)
    (op : OpRWInfo) : OpRWInfo :=
  if srcOp.isRegOrMem = false then OpRWInfo.reset
  else
    let op := queryRWCommon (rwx.getD i 0) op
    match srcOp with
    | Operand.reg hasElementIndex elementType elementIndex =>
      if hasElementIndex then
        let elementSize := elementTypeSize.getD elementType 0
        let accessMask := ((2 ^ elementSize - 1) <<< (elementIndex * elementSize)) % 2 ^ 64
        { op with _readByteMask := op._readByteMask &&& accessMask,
                  _writeByteMask := op._writeByteMask &&& accessMask }
      else op
    | Operand.mem hasBase hasIndex isPreOrPost => queryRWMem hasBase hasIndex isPreOrPost op
    | Operand.other => op

/-- The operand loop of `queryRWInfo`: for each `i < opCount` the record
`out->_operands[i]` is rewritten by the per-operand body. -/
def queryRWLoop (step : Operand → Nat → OpRWInfo → OpRWInfo)
    (operands : List Operand) (opCount : Nat) (ops : List OpRWInfo) : List OpRWInfo :=
  (List.range opCount).foldl
    (fun acc i =>
      acc.set i (step (operands.getD i Operand.other) i (acc.getD i OpRWInfo.reset)))
    ops

/-- The output record of `queryRWInfo` (`InstRWInfo` is declared in
core/inst.h, which is not under src/); `_operands` is the fixed array of
operand records, embedded as a list. -/
structure InstRWInfo where
  _instFlags : Nat
  _opCount : Nat
  _rmFeature : Nat
  _extraReg : OpRWInfo
  _readFlags : Nat
  _writeFlags : Nat
  _operands : List OpRWInfo
deriving DecidableEq

/-- `InstInternal::queryRWInfo` (arm/a64instapi.cpp lines 128-249): an
undefined instruction id fails with `kErrorInvalidInstruction` before
anything is written to `out`; otherwise the header fields are written -
`_opCount` receives `uint8_t(opCount)` - and the operand records are
filled by the consecutive loop when the instruction has
`kInstFlagConsecutive` and more than two operands, and by the default
loop otherwise. -/
def InstInternal.queryRWInfo (db : InstDBModel) (inst : BaseInst)
    (operands : List Operand) (opCount : Nat) (out : InstRWInfo) : Nat × InstRWInfo :=
  if Inst.isDefinedId db inst.id = false then (kErrorInvalidInstruction, out)
  else if (db.instInfoOf inst.id).consecutive = true ∧ opCount > 2 then
    (kErrorOk,
      { out with _instFlags := 0, _opCount := opCount % 256, _rmFeature := 0,
                 _extraReg := OpRWInfo.reset, _readFlags := 0, _writeFlags := 0,
                 _operands := queryRWLoop
                   (queryRWStepConsecutive
                     (instRWInfoData.getD (db.instInfoOf inst.id).rwInfoIndex []) opCount)
                   operands opCount out._operands })
  else
    (kErrorOk,
      { out with _instFlags := 0, _opCount := opCount % 256, _rmFeature := 0,
                 _extraReg := OpRWInfo.reset, _readFlags := 0, _writeFlags := 0,
                 _operands := queryRWLoop
                   (queryRWStepDefault
                     (instRWInfoData.getD (db.instInfoOf inst.id).rwInfoIndex []))
                   operands opCount out._operands })

/-- A concrete instruction database used to instantiate the proved
properties: three mnemonics `adc`, `add`, `adds` (ids 1..3) in the
first-letter bucket of `a`, ordered as `Support::cmpInstName` orders
them. -/
def witnessDB : InstDBModel :=
  { nameOf := fun i => [[], [97, 100, 99], [97, 100, 100], [97, 100, 100, 115]].getD i [],
    nameIndexStart := fun p => if p = 0 then 1 else 0,
    nameIndexEnd := fun p => if p = 0 then 4 else 0,
    maxNameSize := 9,
    idCount := 4,
    instInfoOf := fun _ => { rwInfoIndex := 0, consecutive := false } }

/-- A concrete assembler state with pending transient state and a
nonempty section buffer, used to instantiate the proved properties. -/
def witnessAsm : Assembler :=
  { emitter :=
      { _emitterType := EmitterType.kAssembler, _emitterFlags := 0, _validationFlags := 0,
        _diagnosticOptions := 0, _encodingOptions := 0, _forcedInstOptions := 0,
        _instOptions := 4, _extraReg := { _signature := 5, _id := 1 },
        _inlineComment := some [104, 105] },
    buffer := [1, 2], labels := [3], relocations := [4] }

/-- `cmpInstName` compares a name with itself (at its own length) as
equal: every byte matches and the terminating NUL ends the comparison. -/
theorem cmpInstName_self (s : List Nat) : cmpInstName s s s.length = 0 := by
  induction s with
  | nil => rfl
  | cons c cs ih =>
    simp only [List.length_cons, cmpInstName, List.headD_cons, if_pos rfl, List.tail_cons]
    exact ih

/-- Correctness of the binary-search loop of `stringToInstId`: when the
window `(base, lim)` contains an index `t` whose name compares equal to
the key, every smaller index in the window compares below it and every
larger one above it, the loop returns `t`. -/
theorem instSearch_finds (nameOf : Nat → List Nat) (s : List Nat) (len t : Nat) :
    ∀ lim base, base ≤ t → t < base + lim →
      (∀ i, base ≤ i → i < base + lim → i < t → cmpInstName (nameOf i) s len < 0) →
      (∀ i, base ≤ i → i < base + lim → t < i → 0 < cmpInstName (nameOf i) s len) →
      cmpInstName (nameOf t) s len = 0 →
      instSearch nameOf s len base lim = t := by
  intro lim
  induction lim using Nat.strong_induction_on with
  | _ lim ih =>
    intro base hbt htl hlo hhi h0
    have hlim : ¬lim = 0 := by omega
    rw [instSearch, dif_neg hlim]
    by_cases hc1 : cmpInstName (nameOf (base + lim / 2)) s len < 0
    · rw [if_pos hc1]
      have hct : base + lim / 2 < t := by
        rcases Nat.lt_trichotomy (base + lim / 2) t with h | h | h
        · exact h
        · rw [h, h0] at hc1; omega
        · have := hhi (base + lim / 2) (by omega) (by omega) h; omega
      refine ih ((lim - 1) / 2) (by omega) (base + lim / 2 + 1) (by omega) (by omega)
        ?_ ?_ h0
      · intro i h1 h2 h3; exact hlo i (by omega) (by omega) h3
      · intro i h1 h2 h3; exact hhi i (by omega) (by omega) h3
    · rw [if_neg hc1]
      by_cases hc2 : 0 < cmpInstName (nameOf (base + lim / 2)) s len
      · rw [if_pos hc2]
        have hct : t < base + lim / 2 := by
          rcases Nat.lt_trichotomy (base + lim / 2) t with h | h | h
          · have := hlo (base + lim / 2) (by omega) (by omega) h; omega
          · rw [h, h0] at hc2; omega
          · exact h
        refine ih (lim / 2) (by omega) base hbt (by omega) ?_ ?_ h0
        · intro i h1 h2 h3; exact hlo i (by omega) (by omega) h3
        · intro i h1 h2 h3; exact hhi i (by omega) (by omega) h3
      · rw [if_neg hc2]
        rcases Nat.lt_trichotomy (base + lim / 2) t with h | h | h
        · have := hlo (base + lim / 2) (by omega) (by omega) h; omega
        · exact h
        · have := hhi (base + lim / 2) (by omega) (by omega) h; omega

/-- C3: AArch64 instruction validation is a stub that accepts everything:
for every architecture, instruction, operand list, operand count and
validation flags, `InstInternal::validate` returns `kErrorOk`. -/
theorem a64_validate_accepts_everything :
    ∀ (arch : Nat) (inst : BaseInst) (operands : List Operand)
      (opCount validationFlags : Nat),
      InstInternal.validate arch inst operands opCount validationFlags = kErrorOk := by
  intro _ _ _ _ _
  rfl

/-- C5: the options captured for the instruction being emitted - the
`options` field of the `State` returned by `_grabState` - are the bitwise
union of the pending next-instruction options and the forced options. -/
theorem grabState_merges_forced_options (e : BaseEmitter) :
    (e._grabState).fst.options = e._instOptions ||| e._forcedInstOptions := rfl

/-- C6: `emitInst` stores the options and extra register of `inst` into
the transient state (leaving every other member unchanged) and then
dispatches to the array form `_emitOpArray` with the id of `inst` and the
given operand array, returning its result. -/
theorem emitInst_loads_state_then_dispatches
    (emitOpArrayImpl : BaseEmitter → Nat → List Operand → Nat → Nat × BaseEmitter)
    (e : BaseEmitter) (inst : BaseInst) (operands : List Operand) (opCount : Nat) :
    BaseEmitter.emitInst emitOpArrayImpl e inst operands opCount =
      emitOpArrayImpl { e with _instOptions := inst.options, _extraReg := inst.extraReg }
        inst.id operands opCount := rfl

/-- C4: `reportError` is error preserving: for a nonzero error code the
value returned to the caller is exactly `err`, unchanged by the handler
invocation (the handler is invoked exactly when one is attached); calling
it with `err = kErrorOk` is forbidden by a debug assertion, captured here
as the hypothesis. -/
theorem reportError_preserves_error (hasErrorHandlerAttached : Bool) (err : Nat)
    (message : Option (List Nat)) (h : err ≠ kErrorOk) :
    (BaseEmitter.reportError hasErrorHandlerAttached err message).fst = err ∧
    (BaseEmitter.reportError hasErrorHandlerAttached err message).snd =
      hasErrorHandlerAttached :=
  ⟨rfl, rfl⟩

/-- Witness for C4 at a concrete nonzero error code. -/
theorem reportError_preserves_error_witness :
    (BaseEmitter.reportError true 2 none).fst = 2 ∧
    (BaseEmitter.reportError true 2 none).snd = true :=
  reportError_preserves_error true 2 none (by decide)

/-- C9: the emitter-type predicates partition by the numeric ordering of
`EmitterType`: `isAssembler` holds exactly for `kAssembler`, `isCompiler`
exactly for `kCompiler`, and `isBuilder` exactly for `kBuilder` and
`kCompiler`, so every Compiler also reports as a Builder. -/
theorem emitter_type_predicates (e : BaseEmitter) :
    (e.isAssembler = true ↔ e._emitterType = EmitterType.kAssembler) ∧
    (e.isCompiler = true ↔ e._emitterType = EmitterType.kCompiler) ∧
    (e.isBuilder = true ↔
      (e._emitterType = EmitterType.kBuilder ∨ e._emitterType = EmitterType.kCompiler)) := by
  rcases e with ⟨t, f1, f2, f3, f4, f5, f6, f7, f8⟩
  cases t <;>
    simp [BaseEmitter.isAssembler, BaseEmitter.isBuilder, BaseEmitter.isCompiler,
      EmitterType.toNat]

/-- C1: transient per-instruction state is consumed by every emit: after
`resetState`, after `_grabState`, and after the emit path (which grabs
the pending state via `_grabState` before dispatching) returns - whether
it succeeds or fails - the next-instruction options equal the default,
the extra register is not a register, and the inline comment is null:
the emitter is in the `Idle` transient state. -/
theorem transient_state_consumed :
    ∀ (e : BaseEmitter) (validateImpl : Nat → List Operand → Nat)
      (encode : Nat → List Operand → BaseEmitter.State → Except Nat (List Nat))
      (a : Assembler) (instId : Nat) (operands : List Operand),
      transientIdle e.resetState ∧ transientIdle (e._grabState).snd ∧
      transientIdle (Assembler.emitStep validateImpl encode a instId operands).snd.emitter := by
  intro e validateImpl encode a instId operands
  refine ⟨⟨rfl, rfl, rfl⟩, ⟨rfl, rfl, rfl⟩, ?_⟩
  unfold Assembler.emitStep
  split
  · exact ⟨rfl, rfl, rfl⟩
  · split
    · exact ⟨rfl, rfl, rfl⟩
    · exact ⟨rfl, rfl, rfl⟩

/-- C7: failure atomicity of the emit path: when an emit returns an
error, all persistent state - the section buffer (no partial bytes from
a failed encoding are retained), labels, relocations, and every emitter
member other than the transient triple - is unchanged, and the transient
per-instruction state is cleared. -/
theorem emit_failure_atomicity
    (validateImpl : Nat → List Operand → Nat)
    (encode : Nat → List Operand → BaseEmitter.State → Except Nat (List Nat))
    (a : Assembler) (instId : Nat) (operands : List Operand)
    (h : (Assembler.emitStep validateImpl encode a instId operands).fst ≠ kErrorOk) :
    persistentEq (Assembler.emitStep validateImpl encode a instId operands).snd a ∧
    transientIdle (Assembler.emitStep validateImpl encode a instId operands).snd.emitter := by
  unfold Assembler.emitStep at h ⊢
  by_cases hv : a.emitter._diagnosticOptions &&& DiagnosticOptions.kValidateAssembler ≠ 0 ∧
      validateImpl instId operands ≠ kErrorOk
  · rw [if_pos hv] at h ⊢
    exact ⟨⟨rfl, rfl, rfl, rfl, rfl, rfl, rfl, rfl, rfl⟩, rfl, rfl, rfl⟩
  · rw [if_neg hv] at h ⊢
    cases henc : encode instId operands (a.emitter._grabState).fst with
    | ok bytes => rw [henc] at h; exact absurd rfl h
    | error err => exact ⟨⟨rfl, rfl, rfl, rfl, rfl, rfl, rfl, rfl, rfl⟩, rfl, rfl, rfl⟩

/-- Witness for C7: a concrete emit whose encoder fails leaves the
concrete assembler state intact apart from the cleared transient
state. -/
theorem emit_failure_atomicity_witness :
    persistentEq
      (Assembler.emitStep (fun _ _ => 0) (fun _ _ _ => Except.error 7) witnessAsm 5 []).snd
      witnessAsm ∧
    transientIdle
      (Assembler.emitStep (fun _ _ => 0) (fun _ _ _ => Except.error 7) witnessAsm 5
        []).snd.emitter :=
  emit_failure_atomicity (fun _ _ => 0) (fun _ _ _ => Except.error 7) witnessAsm 5 []
    (by decide)

/-- C2: round-trip of instruction names on AArch64: for every valid
mnemonic - a nonempty byte string `s` of at most `kMaxNameSize` bytes
that starts with a lowercase ASCII letter and is stored at some index `t`
of its (cmpInstName-sorted) first-letter bucket of the instruction
database - `stringToInstId` returns a defined instruction id, and
`instIdToString` applied to that id appends exactly `s` to the output. -/
theorem a64_instname_roundtrip (db : InstDBModel) (s : List Nat) (len t : Nat)
    (output : List Nat)
    (hs0 : s ≠ [])
    (hlow : 97 ≤ s.headD 0 ∧ s.headD 0 ≤ 122)
    (hlen : len = s.length ∨ len = SIZE_MAX)
    (hmax : s.length ≤ db.maxNameSize)
    (hstart : db.nameIndexStart (s.headD 0 - 97) ≠ 0)
    (hwin : db.nameIndexStart (s.headD 0 - 97) ≤ t ∧ t < db.nameIndexEnd (s.headD 0 - 97))
    (hend : db.nameIndexEnd (s.headD 0 - 97) ≤ db.idCount)
    (hname : db.nameOf t = s)
    (hlt : ∀ i, i < db.nameIndexEnd (s.headD 0 - 97) →
      db.nameIndexStart (s.headD 0 - 97) ≤ i → i < t →
      cmpInstName (db.nameOf i) s s.length < 0)
    (hgt : ∀ i, i < db.nameIndexEnd (s.headD 0 - 97) →
      db.nameIndexStart (s.headD 0 - 97) ≤ i → t < i →
      0 < cmpInstName (db.nameOf i) s s.length) :
    Inst.isDefinedId db (stringToInstId db (Option.some s) len) = true ∧
    instIdToString db (stringToInstId db (Option.some s) len) output =
      Except.ok (output ++ s) := by
  have hlen0 : s.length ≠ 0 := by
    cases s with
    | nil => exact absurd rfl hs0
    | cons c cs => simp
  have heff : effLen s len = s.length := by
    unfold effLen
    rcases hlen with h | h
    · by_cases hsm : len = SIZE_MAX
      · rw [if_pos hsm]
      · rw [if_neg hsm, h]
    · rw [if_pos h]
  have hb : s.headD 0 % 256 = s.headD 0 := Nat.mod_eq_of_lt (by omega)
  have hpfx : (charToUInt32 (s.headD 0) + (2 ^ 32 - 97)) % 2 ^ 32 = s.headD 0 - 97 := by
    unfold charToUInt32
    rw [hb, if_pos (by omega)]
    omega
  have hmain : stringToInstId db (Option.some s) len = t := by
    simp only [stringToInstId]
    rw [heff, hpfx]
    rw [if_neg (by omega : ¬(s.length = 0 ∨ s.length > db.maxNameSize))]
    rw [if_neg (by omega : ¬(s.headD 0 - 97 > 25))]
    rw [if_neg hstart]
    refine instSearch_finds db.nameOf s s.length t _ _ hwin.1 (by omega) ?_ ?_ ?_
    · intro i h1 h2 h3
      exact hlt i (by omega) (by omega) h3
    · intro i h1 h2 h3
      exact hgt i (by omega) (by omega) h3
    · rw [hname]
      exact cmpInstName_self s
  rw [hmain]
  constructor
  · simp only [Inst.isDefinedId, decide_eq_true_eq]
    omega
  · unfold instIdToString
    rw [if_neg (by simp only [Inst.isDefinedId, decide_eq_false_iff_not, not_not]; omega)]
    rw [hname]

/-- Witness for C2: the mnemonic `add` (bytes 97 100 100), stored at id 2
of the concrete database, round-trips. -/
theorem a64_instname_roundtrip_witness :
    Inst.isDefinedId witnessDB (stringToInstId witnessDB (Option.some [97, 100, 100]) 3) =
      true ∧
    instIdToString witnessDB (stringToInstId witnessDB (Option.some [97, 100, 100]) 3) [] =
      Except.ok ([] ++ [97, 100, 100]) :=
  a64_instname_roundtrip witnessDB [97, 100, 100] 3 2 []
    (by decide) (by decide) (Or.inl (by decide)) (by decide) (by decide) (by decide)
    (by decide) (by decide) (by decide) (by decide)

/-- C8: implicit input rejection in `stringToInstId`: a NULL string, an
effective length (strlen when `len = SIZE_MAX`, otherwise `len`) of zero
or above `InstDB::kMaxNameSize`, or a first character that is not a
lowercase ASCII letter, all yield `Inst::kIdNone` - independently of the
instruction table, which the search loop therefore never consults. -/
theorem stringToInstId_rejects (db : InstDBModel) (s : Option (List Nat)) (len : Nat)
    (h : s = Option.none ∨ ∃ cs, s = Option.some cs ∧
      (effLen cs len = 0 ∨ effLen cs len > db.maxNameSize ∨
       ¬(97 ≤ cs.headD 0 % 256 ∧ cs.headD 0 % 256 ≤ 122))) :
    stringToInstId db s len = Inst.kIdNone := by
  rcases h with h | ⟨cs, rfl, hc⟩
  · rw [h]
    rfl
  · simp only [stringToInstId]
    by_cases hel : effLen cs len = 0 ∨ effLen cs len > db.maxNameSize
    · rw [if_pos hel]
    · rw [if_neg hel]
      have hfc : ¬(97 ≤ cs.headD 0 % 256 ∧ cs.headD 0 % 256 ≤ 122) := by
        rcases hc with hc | hc | hc
        · exact absurd (Or.inl hc) hel
        · exact absurd (Or.inr hc) hel
        · exact hc
      have hgt : (charToUInt32 (cs.headD 0) + (2 ^ 32 - 97)) % 2 ^ 32 > 25 := by
        unfold charToUInt32
        by_cases hs2 : cs.headD 0 % 256 < 128
        · rw [if_pos hs2]
          omega
        · rw [if_neg hs2]
          omega
      rw [if_pos hgt]

/-- Witness for C8: a string starting with an uppercase letter (byte 65)
is rejected without consulting the table. -/
theorem stringToInstId_rejects_witness :
    stringToInstId witnessDB (Option.some [65, 98, 99]) 3 = Inst.kIdNone :=
  stringToInstId_rejects witnessDB (Option.some [65, 98, 99]) 3
    (Or.inr ⟨[65, 98, 99], rfl, Or.inr (Or.inr (by decide))⟩)

/-- C10: `queryRWInfo` error atomicity and opCount postcondition: an
undefined instruction id fails with `kErrorInvalidInstruction` and writes
nothing into the output record; a defined id succeeds with `kErrorOk` and
sets the `_opCount` of the output to the `opCount` argument (which is at
most `Globals::kMaxOpCount = 6` on any well-defined call, making the
`uint8_t` store lossless). -/
theorem queryRWInfo_contract (db : InstDBModel) (inst : BaseInst)
    (operands : List Operand) (opCount : Nat) (out : InstRWInfo)
    (hcount : opCount ≤ 6) :
    (Inst.isDefinedId db inst.id = false →
      InstInternal.queryRWInfo db inst operands opCount out =
        (kErrorInvalidInstruction, out)) ∧
    (Inst.isDefinedId db inst.id = true →
      (InstInternal.queryRWInfo db inst operands opCount out).fst = kErrorOk ∧
      (InstInternal.queryRWInfo db inst operands opCount out).snd._opCount = opCount) := by
  constructor
  · intro h
    unfold InstInternal.queryRWInfo
    rw [if_pos h]
  · intro h
    unfold InstInternal.queryRWInfo
    rw [if_neg (by simp [h])]
    by_cases hcons : (db.instInfoOf inst.id).consecutive = true ∧ opCount > 2
    · rw [if_pos hcons]
      exact ⟨rfl, Nat.mod_eq_of_lt (by omega)⟩
    · rw [if_neg hcons]
      exact ⟨rfl, Nat.mod_eq_of_lt (by omega)⟩

/-- Witness for C10: a defined instruction id (2) of the concrete
database, queried with one register operand, succeeds and stores the
operand count. -/
theorem queryRWInfo_contract_witness :
    (InstInternal.queryRWInfo witnessDB
        { id := 2, options := 0, extraReg := { _signature := 0, _id := 0 } }
        [Operand.reg false 0 0] 1
        { _instFlags := 0, _opCount := 0, _rmFeature := 0, _extraReg := OpRWInfo.reset,
          _readFlags := 0, _writeFlags := 0,
          _operands := [OpRWInfo.reset, OpRWInfo.reset] }).fst = kErrorOk ∧
    (InstInternal.queryRWInfo witnessDB
        { id := 2, options := 0, extraReg := { _signature := 0, _id := 0 } }
        [Operand.reg false 0 0] 1
        { _instFlags := 0, _opCount := 0, _rmFeature := 0, _extraReg := OpRWInfo.reset,
          _readFlags := 0, _writeFlags := 0,
          _operands := [OpRWInfo.reset, OpRWInfo.reset] }).snd._opCount = 1 :=
  (queryRWInfo_contract witnessDB
    { id := 2, options := 0, extraReg := { _signature := 0, _id := 0 } }
    [Operand.reg false 0 0] 1
    { _instFlags := 0, _opCount := 0, _rmFeature := 0, _extraReg := OpRWInfo.reset,
      _readFlags := 0, _writeFlags := 0,
      _operands := [OpRWInfo.reset, OpRWInfo.reset] }
    (by decide)).2 (by decide)

end AsmJit
